import Mathlib

/-!
# Verification of the MCP peer library core against its specification

A shallow embedding of the JSON-RPC codec (`src/codec.cpp`, `src/json_rpc.cpp`),
the router (`src/router.cpp`) and the server method handlers, pagination and
notification emission (`src/server.cpp`) of the MCP C++ library, with theorems
settling the specification's claims about them.

Modelling conventions:
* Machine integers (`int64_t`, `size_t`) are modelled as `Int`/`Nat`, with the
  `2^64` wrap made explicit where the code can overflow (`std::stoull`).
* The byte-level JSON text layer (simdjson parsing, `nlohmann::json::dump`) is
  the external JSON parser, declared out of scope by the specification, so the
  codec is embedded from the JSON value tree upward, mirroring
  `Codec::parse_object` and the `to_json` overloads exactly.  Field-order
  questions disappear at this level: objects are association lists and every
  access in the embedded code goes through key lookup, matching the claims'
  "up to JSON field ordering" qualification.
* C++ exceptions are modelled as explicit outcome constructors: a handler is a
  function into an outcome type with `throw` cases, and fallible parsing
  returns `Except`.
-/

/-- JSON values.  Objects are association lists of fields; `nlohmann::json`
objects have unique keys, and every access below is by key lookup, so field
order never matters.  JSON numbers are modelled as integers: no claim in
scope depends on floating-point values. -/
inductive Json : Type where
  | null : Json
  | bool (b : Bool) : Json
  | num (n : Int) : Json
  | str (s : String) : Json
  | arr (elems : List Json) : Json
  | obj (fields : List (String × Json)) : Json

/-- Key lookup in a JSON object (`nlohmann::json::operator[]` / `at` on an
object); `none` for a missing key or a non-object. -/
def Json.lookup? (j : Json) (key : String) : Option Json :=
  match j with
  | .obj fields => fields.lookup key
  | _ => none

/-- `nlohmann::json::contains`. -/
def Json.hasKey (j : Json) (key : String) : Bool :=
  (j.lookup? key).isSome

/-- `is_null()`. -/
def Json.isNull : Json → Bool
  | .null => true
  | _ => false

/-- `is_object()`. -/
def Json.isObj : Json → Bool
  | .obj _ => true
  | _ => false

/-- `is_string()`. -/
def Json.isStr : Json → Bool
  | .str _ => true
  | _ => false

/-- `is_number_integer()`. -/
def Json.isNum : Json → Bool
  | .num _ => true
  | _ => false

/-- `JSONRPC_VERSION` from `version.hpp`. -/
def JSONRPC_VERSION : String := "2.0"

/-- `RequestId = std::variant<int64_t, std::string>` (`json_rpc.hpp`). -/
inductive RequestId : Type where
  | int (i : Int) : RequestId
  | str (s : String) : RequestId
deriving DecidableEq

/-- `struct JsonRpcError` (`json_rpc.hpp`). -/
structure JsonRpcError where
  code : Int
  message : String
  data : Option Json

/-- `struct JsonRpcRequest` (`json_rpc.hpp`). -/
structure JsonRpcRequest where
  id : RequestId
  method : String
  params : Option Json
  meta : Option Json

/-- `struct JsonRpcResponse` (`json_rpc.hpp`). -/
structure JsonRpcResponse where
  id : RequestId
  result : Option Json
  error : Option JsonRpcError

/-- `struct JsonRpcNotification` (`json_rpc.hpp`). -/
structure JsonRpcNotification where
  method : String
  params : Option Json

/-- `JsonRpcMessage = std::variant<JsonRpcRequest, JsonRpcResponse,
JsonRpcNotification>`. -/
inductive JsonRpcMessage : Type where
  | request (r : JsonRpcRequest) : JsonRpcMessage
  | response (r : JsonRpcResponse) : JsonRpcMessage
  | notification (n : JsonRpcNotification) : JsonRpcMessage

/-- Emission of an optional member: present fields are emitted, absent ones
omitted (the `if (r.params) j["params"] = *r.params;` pattern). -/
def optField (key : String) : Option Json → List (String × Json)
  | some v => [(key, v)]
  | none => []

/-- `to_json` for `RequestId` (`json_rpc.hpp`). -/
def RequestId.to_json : RequestId → Json
  | .int i => .num i
  | .str s => .str s

/-- `to_json` for `JsonRpcError` (`json_rpc.hpp`). -/
def JsonRpcError.to_json (e : JsonRpcError) : Json :=
  .obj ([("code", .num e.code), ("message", .str e.message)] ++ optField "data" e.data)

/-- `to_json(nlohmann::json&, const JsonRpcRequest&)` (`json_rpc.cpp`). -/
def JsonRpcRequest.to_json (r : JsonRpcRequest) : Json :=
  .obj ([("jsonrpc", .str JSONRPC_VERSION), ("id", r.id.to_json), ("method", .str r.method)]
        ++ optField "params" r.params ++ optField "_meta" r.meta)

/-- `to_json(nlohmann::json&, const JsonRpcResponse&)` (`json_rpc.cpp`):
emits `result` when set and `error` when set — with no exclusivity check. -/
def JsonRpcResponse.to_json (r : JsonRpcResponse) : Json :=
  .obj ([("jsonrpc", .str JSONRPC_VERSION), ("id", r.id.to_json)]
        ++ optField "result" r.result ++ optField "error" (r.error.map JsonRpcError.to_json))

/-- `to_json(nlohmann::json&, const JsonRpcNotification&)` (`json_rpc.cpp`). -/
def JsonRpcNotification.to_json (n : JsonRpcNotification) : Json :=
  .obj ([("jsonrpc", .str JSONRPC_VERSION), ("method", .str n.method)]
        ++ optField "params" n.params)

/-- `to_json(nlohmann::json&, const JsonRpcMessage&)` (`json_rpc.cpp`),
i.e. the value serialized by `Codec::serialize`. -/
def JsonRpcMessage.to_json : JsonRpcMessage → Json
  | .request r => r.to_json
  | .response r => r.to_json
  | .notification n => n.to_json

/-- Failure modes of the parse path.  `mcpParse` is a thrown `McpParseError`;
`typeErr` is any other exception escaping `Codec::parse` — the nlohmann
`type_error`/`out_of_range` raised by typed field access (`get<std::string>`,
`at("code")`, …) or the `std::invalid_argument` thrown by the `RequestId`
`from_json`.  The distinction is observable to callers (`codec.cpp` only
wraps the byte-level JSON errors in `McpParseError`). -/
inductive CodecFailure : Type where
  | mcpParse (msg : String)
  | typeErr (msg : String)
deriving DecidableEq

/-- `get<std::string>()`: throws a type error unless the value is a string. -/
def Json.getString : Json → Except CodecFailure String
  | .str s => .ok s
  | _ => .error (.typeErr "type_error: not a string")

/-- `get<int>()`: throws a type error unless the value is a number. -/
def Json.getInt : Json → Except CodecFailure Int
  | .num n => .ok n
  | _ => .error (.typeErr "type_error: not a number")

/-- `from_json` for `RequestId` (`json_rpc.hpp`): integer or string,
otherwise `std::invalid_argument`. -/
def RequestId.from_json : Json → Except CodecFailure RequestId
  | .num i => .ok (.int i)
  | .str s => .ok (.str s)
  | _ => .error (.typeErr "invalid_argument: RequestId must be integer or string")

/-- `from_json` for `JsonRpcError` (`json_rpc.hpp`): `at("code").get<int>()`,
`at("message").get<std::string>()`, optional raw `data`.  A missing key or a
non-object operand throws (`out_of_range` / `type_error`). -/
def JsonRpcError.from_json (j : Json) : Except CodecFailure JsonRpcError := do
  let code ← match j.lookup? "code" with
    | some v => v.getInt
    | none => .error (.typeErr "out_of_range: key code not found")
  let message ← match j.lookup? "message" with
    | some v => v.getString
    | none => .error (.typeErr "out_of_range: key message not found")
  .ok { code := code, message := message, data := j.lookup? "data" }

/-- `Codec::parse_object` (`codec.cpp`, lines 67–110), embedded verbatim:
validate `jsonrpc`, then disambiguate on the presence of `id`/`method`. -/
def Codec.parse_object (j : Json) : Except CodecFailure JsonRpcMessage := do
  match j.lookup? "jsonrpc" with
  | none => .error (.mcpParse "Missing jsonrpc field")
  | some verj =>
    let ver ← verj.getString
    if ver = JSONRPC_VERSION then
      match j.lookup? "method", j.lookup? "id" with
      | some mv, some idv =>
        if idv.isNull then
          .error (.mcpParse "Request ID must not be null")
        else do
          let id ← RequestId.from_json idv
          let method ← mv.getString
          .ok (.request { id := id, method := method,
                          params := j.lookup? "params", meta := j.lookup? "_meta" })
      | some mv, none => do
          let method ← mv.getString
          .ok (.notification { method := method, params := j.lookup? "params" })
      | none, some idv =>
        if idv.isNull then
          .error (.mcpParse "Response ID must not be null")
        else do
          let id ← RequestId.from_json idv
          let result := j.lookup? "result"
          let error ← match j.lookup? "error" with
            | some ej => (JsonRpcError.from_json ej).map some
            | none => .ok (none : Option JsonRpcError)
          .ok (.response { id := id, result := result, error := error })
      | none, none =>
        .error (.mcpParse "Cannot determine message type: missing both id and method")
    else
      .error (.mcpParse "Invalid jsonrpc version, expected 2.0")

/-- `Codec::parse` (`codec.cpp`, lines 112–141), from the point where the
byte-level JSON parse (simdjson, out of scope) has produced a value tree:
reject non-objects with a parse error, then run `parse_object`. -/
def Codec.parse (j : Json) : Except CodecFailure JsonRpcMessage :=
  match j with
  | .obj _ => Codec.parse_object j
  | _ => .error (.mcpParse "Message must be a JSON object")

/-- C1: For every JSON-RPC frame S (request, response, or notification),
parsing the serialization of S yields S again:
`Codec::parse(Codec::serialize(S)) == S`, up to JSON field ordering. -/
theorem codec_parse_serialize_roundtrip (S : JsonRpcMessage) :
    Codec.parse S.to_json = .ok S := by
  cases S with
  | request r =>
    obtain ⟨id, method, params, meta⟩ := r
    cases id <;> cases params <;> cases meta <;> rfl
  | response r =>
    obtain ⟨id, result, error⟩ := r
    cases id <;> cases result <;>
      (cases error with
       | none => rfl
       | some e =>
         obtain ⟨c, m, d⟩ := e
         cases d <;> rfl)
  | notification n =>
    obtain ⟨method, params⟩ := n
    cases params <;> rfl

/-- Classifier: did the parse path throw `McpParseError`? -/
def isMcpParseFail : Except CodecFailure JsonRpcMessage → Bool
  | .error (.mcpParse _) => true
  | _ => false

/-- Classifier: did the parse path succeed? -/
def isParseOk : Except CodecFailure JsonRpcMessage → Bool
  | .ok _ => true
  | _ => false

/-- Following claim C2's words: the enumerated conditions under which the
claim says `Codec::parse` fails with a parse error ("is not a single JSON
object, lacks the jsonrpc field or carries a value other than 2.0, carries a
JSON-null id on a request or response, or has neither method nor id"),
stated on the value tree the byte-level parse produced. -/
def specClaimedParseErrorCond (j : Json) : Bool :=
  !j.isObj
  || (match j.lookup? "jsonrpc" with
      | some (.str s) => s != "2.0"
      | _ => true)
  || (match j.lookup? "id" with
      | some idv => idv.isNull
      | none => !(j.hasKey "method"))

/-- Following the amended claim's words: the conditions under which the code
throws a `McpParseError` proper — as claimed, except that a `jsonrpc` member
that is present but not a JSON string fails with a type error instead. -/
def specMcpParseCond (j : Json) : Bool :=
  !j.isObj
  || (match j.lookup? "jsonrpc" with
      | none => true
      | some (.str s) =>
        if s = "2.0" then
          match j.lookup? "id" with
          | some idv => idv.isNull
          | none => !(j.hasKey "method")
        else true
      | some _ => false)

/-- An id acceptable to the `RequestId` `from_json`: integer or string. -/
def specIdOk (idv : Json) : Bool :=
  idv.isNum || idv.isStr

/-- A well-formed wire error object: an integer `code` and a string
`message`, as required by the `JsonRpcError` `from_json`. -/
def specErrObjOk (ej : Json) : Bool :=
  (match ej.lookup? "code" with
   | some (.num _) => true
   | _ => false)
  && (match ej.lookup? "message" with
      | some (.str _) => true
      | _ => false)

/-- The `error` member, when present, must be a well-formed wire error
object for the response branch of `parse_object` to succeed. -/
def specErrMemberOk (j : Json) : Bool :=
  match j.lookup? "error" with
  | none => true
  | some ej => specErrObjOk ej

/-- Following the amended claim's words: `Codec::parse` succeeds exactly when
the input is an object with `jsonrpc` equal to the string `"2.0"`, and the
disambiguated frame's typed members are well-formed: a request needs a
non-null integer-or-string id and a string method; a notification a string
method; a response a non-null integer-or-string id and, if an `error`
member is present, an integer `code` and a string `message` inside it. -/
def specParseOkCond (j : Json) : Bool :=
  j.isObj
  && (match j.lookup? "jsonrpc" with
      | some (.str s) => s == "2.0"
      | _ => false)
  && (match j.lookup? "method", j.lookup? "id" with
      | some mv, some idv => !idv.isNull && specIdOk idv && mv.isStr
      | some mv, none => mv.isStr
      | none, some idv => !idv.isNull && specIdOk idv && specErrMemberOk j
      | none, none => false)

/-- C2 counterexample: the input `{"jsonrpc":"2.0","method":5}` meets none of
the claim's enumerated parse-error conditions, so the claim says `parse`
succeeds on it; the code instead fails — with a nlohmann `type_error` from
`get<std::string>` on the numeric method, which is not a parse error. -/
theorem codec_parse_claimed_cond_counterexample :
    specClaimedParseErrorCond (.obj [("jsonrpc", .str "2.0"), ("method", .num 5)]) = false
    ∧ isParseOk (Codec.parse (.obj [("jsonrpc", .str "2.0"), ("method", .num 5)])) = false
    ∧ isMcpParseFail (Codec.parse (.obj [("jsonrpc", .str "2.0"), ("method", .num 5)])) = false :=
  ⟨rfl, rfl, rfl⟩


/-- Success classifier for the embedded `JsonRpcError` `from_json`. -/
def errFromJsonOk : Except CodecFailure JsonRpcError → Bool
  | .ok _ => true
  | _ => false

/-- The `JsonRpcError` `from_json` succeeds exactly on well-formed wire
error objects. -/
theorem jsonRpcError_from_json_isOk (ej : Json) :
    errFromJsonOk (JsonRpcError.from_json ej) = specErrObjOk ej := by
  rcases hc : ej.lookup? "code" with _ | cv
  · simp [JsonRpcError.from_json, specErrObjOk, errFromJsonOk, hc, bind, Except.bind]
  · rcases hm2 : ej.lookup? "message" with _ | mv2
    · rcases cv with _ | cb | cn | cs | ce | co <;>
        simp [JsonRpcError.from_json, specErrObjOk, errFromJsonOk, hc, hm2,
          Json.getInt, Json.getString, bind, Except.bind]
    · rcases cv with _ | cb | cn | cs | ce | co <;>
        rcases mv2 with _ | mb | mn | ms | me | mo <;>
        simp [JsonRpcError.from_json, specErrObjOk, errFromJsonOk, hc, hm2,
          Json.getInt, Json.getString, bind, Except.bind]

/-- When the `JsonRpcError` `from_json` fails, the escaping exception is a
type error, never a `McpParseError`. -/
theorem jsonRpcError_from_json_err_typeErr (ej : Json) (f : CodecFailure)
    (h : JsonRpcError.from_json ej = .error f) : ∃ m, f = .typeErr m := by
  rcases hc : ej.lookup? "code" with _ | cv
  · simp [JsonRpcError.from_json, hc, bind, Except.bind] at h
    exact ⟨_, h.symm⟩
  · rcases hm2 : ej.lookup? "message" with _ | mv2
    · rcases cv with _ | cb | cn | cs | ce | co <;>
        simp [JsonRpcError.from_json, hc, hm2, Json.getInt, Json.getString, bind, Except.bind] at h <;>
        exact ⟨_, h.symm⟩
    · rcases cv with _ | cb | cn | cs | ce | co <;>
        rcases mv2 with _ | mb | mn | ms | me | mo <;>
        simp [JsonRpcError.from_json, hc, hm2, Json.getInt, Json.getString, bind, Except.bind] at h <;>
        exact ⟨_, h.symm⟩

/-- C2 (amended): full classification of `Codec::parse` outcomes on the value
tree produced by the byte-level parse.  It throws `McpParseError` exactly for
a non-object, a missing `jsonrpc`, a string `jsonrpc` other than `"2.0"`, a
JSON-null id, or a frame with neither method nor id; it succeeds exactly when
the object passes those checks and the typed members are well-formed; every
remaining failure (non-string `jsonrpc` or `method`, an id that is neither
integer nor string, a malformed `error` member) is a type error — an
exception, but not a parse error. -/
theorem codec_parse_error_classification (j : Json) :
    isMcpParseFail (Codec.parse j) = specMcpParseCond j
    ∧ isParseOk (Codec.parse j) = specParseOkCond j := by
  cases j with
  | null => exact ⟨rfl, rfl⟩
  | bool b => exact ⟨rfl, rfl⟩
  | num n => exact ⟨rfl, rfl⟩
  | str s => exact ⟨rfl, rfl⟩
  | arr es => exact ⟨rfl, rfl⟩
  | obj fs =>
    rcases hv : (Json.obj fs).lookup? "jsonrpc" with _ | verj
    · constructor <;>
        simp [isMcpParseFail, isParseOk, Codec.parse, Codec.parse_object,
          specMcpParseCond, specParseOkCond, Json.isObj, hv]
    · rcases verj with _ | vb | vn | vs | ve | vo <;>
        [skip; skip; skip;
         (by_cases hvs : vs = "2.0"
          · subst hvs
            rcases hmv : (Json.obj fs).lookup? "method" with _ | mv
            · rcases hid : (Json.obj fs).lookup? "id" with _ | idv
              · constructor <;>
                  simp [isMcpParseFail, isParseOk, Codec.parse, Codec.parse_object,
                    specMcpParseCond, specParseOkCond, Json.isObj, Json.hasKey,
                    Json.getString, JSONRPC_VERSION, bind, Except.bind, hv, hmv, hid]
              · -- response branch: no method, id present
                rcases idv with _ | ib | ii | is | ie | io
                · constructor <;>
                    simp [isMcpParseFail, isParseOk, Codec.parse, Codec.parse_object,
                      specMcpParseCond, specParseOkCond, specIdOk, specErrMemberOk,
                      Json.isObj, Json.hasKey, Json.isNull, Json.isNum, Json.isStr,
                      Json.getString, RequestId.from_json, JSONRPC_VERSION,
                      bind, Except.bind, Except.map, hv, hmv, hid]
                · constructor <;>
                    simp [isMcpParseFail, isParseOk, Codec.parse, Codec.parse_object,
                      specMcpParseCond, specParseOkCond, specIdOk, specErrMemberOk,
                      Json.isObj, Json.hasKey, Json.isNull, Json.isNum, Json.isStr,
                      Json.getString, RequestId.from_json, JSONRPC_VERSION,
                      bind, Except.bind, Except.map, hv, hmv, hid]
                · -- integer id: analyse the error member
                  rcases her : (Json.obj fs).lookup? "error" with _ | ej
                  · constructor <;>
                      simp [isMcpParseFail, isParseOk, Codec.parse, Codec.parse_object,
                        specMcpParseCond, specParseOkCond, specIdOk, specErrMemberOk,
                        Json.isObj, Json.hasKey, Json.isNull, Json.isNum, Json.isStr,
                        Json.getString, RequestId.from_json, JSONRPC_VERSION,
                        bind, Except.bind, Except.map, hv, hmv, hid, her]
                  · have hok := jsonRpcError_from_json_isOk ej
                    rcases hfe : JsonRpcError.from_json ej with f | e
                    · obtain ⟨m, rfl⟩ := jsonRpcError_from_json_err_typeErr ej f hfe
                      rw [hfe] at hok
                      simp only [errFromJsonOk] at hok
                      constructor <;>
                        simp [isMcpParseFail, isParseOk, Codec.parse, Codec.parse_object,
                          specMcpParseCond, specParseOkCond, specIdOk, specErrMemberOk,
                          Json.isObj, Json.hasKey, Json.isNull, Json.isNum, Json.isStr,
                          Json.getString, RequestId.from_json, JSONRPC_VERSION,
                          bind, Except.bind, Except.map, hv, hmv, hid, her, hfe, ← hok]
                    · rw [hfe] at hok
                      simp only [errFromJsonOk] at hok
                      constructor <;>
                        simp [isMcpParseFail, isParseOk, Codec.parse, Codec.parse_object,
                          specMcpParseCond, specParseOkCond, specIdOk, specErrMemberOk,
                          Json.isObj, Json.hasKey, Json.isNull, Json.isNum, Json.isStr,
                          Json.getString, RequestId.from_json, JSONRPC_VERSION,
                          bind, Except.bind, Except.map, hv, hmv, hid, her, hfe, ← hok]
                · -- string id: analyse the error member
                  rcases her : (Json.obj fs).lookup? "error" with _ | ej
                  · constructor <;>
                      simp [isMcpParseFail, isParseOk, Codec.parse, Codec.parse_object,
                        specMcpParseCond, specParseOkCond, specIdOk, specErrMemberOk,
                        Json.isObj, Json.hasKey, Json.isNull, Json.isNum, Json.isStr,
                        Json.getString, RequestId.from_json, JSONRPC_VERSION,
                        bind, Except.bind, Except.map, hv, hmv, hid, her]
                  · have hok := jsonRpcError_from_json_isOk ej
                    rcases hfe : JsonRpcError.from_json ej with f | e
                    · obtain ⟨m, rfl⟩ := jsonRpcError_from_json_err_typeErr ej f hfe
                      rw [hfe] at hok
                      simp only [errFromJsonOk] at hok
                      constructor <;>
                        simp [isMcpParseFail, isParseOk, Codec.parse, Codec.parse_object,
                          specMcpParseCond, specParseOkCond, specIdOk, specErrMemberOk,
                          Json.isObj, Json.hasKey, Json.isNull, Json.isNum, Json.isStr,
                          Json.getString, RequestId.from_json, JSONRPC_VERSION,
                          bind, Except.bind, Except.map, hv, hmv, hid, her, hfe, ← hok]
                    · rw [hfe] at hok
                      simp only [errFromJsonOk] at hok
                      constructor <;>
                        simp [isMcpParseFail, isParseOk, Codec.parse, Codec.parse_object,
                          specMcpParseCond, specParseOkCond, specIdOk, specErrMemberOk,
                          Json.isObj, Json.hasKey, Json.isNull, Json.isNum, Json.isStr,
                          Json.getString, RequestId.from_json, JSONRPC_VERSION,
                          bind, Except.bind, Except.map, hv, hmv, hid, her, hfe, ← hok]
                · constructor <;>
                    simp [isMcpParseFail, isParseOk, Codec.parse, Codec.parse_object,
                      specMcpParseCond, specParseOkCond, specIdOk, specErrMemberOk,
                      Json.isObj, Json.hasKey, Json.isNull, Json.isNum, Json.isStr,
                      Json.getString, RequestId.from_json, JSONRPC_VERSION,
                      bind, Except.bind, Except.map, hv, hmv, hid]
                · constructor <;>
                    simp [isMcpParseFail, isParseOk, Codec.parse, Codec.parse_object,
                      specMcpParseCond, specParseOkCond, specIdOk, specErrMemberOk,
                      Json.isObj, Json.hasKey, Json.isNull, Json.isNum, Json.isStr,
                      Json.getString, RequestId.from_json, JSONRPC_VERSION,
                      bind, Except.bind, Except.map, hv, hmv, hid]
            · rcases hid : (Json.obj fs).lookup? "id" with _ | idv
              · -- notification branch: method present, no id
                rcases mv with _ | mb | mn | ms | me | mo <;>
                  constructor <;>
                  simp [isMcpParseFail, isParseOk, Codec.parse, Codec.parse_object,
                    specMcpParseCond, specParseOkCond, Json.isObj, Json.hasKey,
                    Json.isStr, Json.getString, JSONRPC_VERSION, bind, Except.bind,
                    hv, hmv, hid]
              · -- request branch: method and id present
                rcases idv with _ | ib | ii | is | ie | io <;>
                  rcases mv with _ | mb | mn | ms | me | mo <;>
                  constructor <;>
                  simp [isMcpParseFail, isParseOk, Codec.parse, Codec.parse_object,
                    specMcpParseCond, specParseOkCond, specIdOk, Json.isObj, Json.hasKey,
                    Json.isNull, Json.isNum, Json.isStr, Json.getString,
                    RequestId.from_json, JSONRPC_VERSION, bind, Except.bind,
                    hv, hmv, hid]
          · constructor <;>
              simp [isMcpParseFail, isParseOk, Codec.parse, Codec.parse_object,
                specMcpParseCond, specParseOkCond, Json.isObj, Json.getString,
                JSONRPC_VERSION, bind, Except.bind, hv, hvs]);
         skip; skip] <;>
      constructor <;>
        simp [isMcpParseFail, isParseOk, Codec.parse, Codec.parse_object,
          specMcpParseCond, specParseOkCond, Json.isObj, Json.getString,
          bind, Except.bind, hv]

/-- C3 counterexample: the codec does not enforce result/error exclusivity.
Serializing a response value carrying both members emits both `result` and
`error` in one object, and parsing `{"jsonrpc":"2.0","id":1}` yields a
Response frame carrying neither. -/
theorem response_result_error_exclusivity_counterexample :
    (((JsonRpcResponse.to_json
        { id := .int 1, result := some (.obj []),
          error := some { code := -32601, message := "m", data := none } }).lookup?
        "result").isSome = true)
    ∧ (((JsonRpcResponse.to_json
        { id := .int 1, result := some (.obj []),
          error := some { code := -32601, message := "m", data := none } }).lookup?
        "error").isSome = true)
    ∧ Codec.parse (.obj [("jsonrpc", .str "2.0"), ("id", .num 1)])
        = .ok (.response { id := .int 1, result := none, error := none }) :=
  ⟨rfl, rfl, rfl⟩

/-- C3 (amended): the codec mirrors rather than enforces result/error
exclusivity — serialize emits `result` exactly when the frame's result is
set and `error` exactly when its error is set (so a response obeying the §3
invariant, with exactly one set, is serialized with exactly one member), and
a parsed Response frame carries result/error exactly when the wire object
carries those members. -/
theorem response_result_error_mirroring (r : JsonRpcResponse) (j : Json)
    (r' : JsonRpcResponse) (hp : Codec.parse j = .ok (.response r')) :
    ((r.to_json.lookup? "result").isSome = r.result.isSome
     ∧ (r.to_json.lookup? "error").isSome = r.error.isSome)
    ∧ (r'.result.isSome = (j.lookup? "result").isSome
       ∧ r'.error.isSome = (j.lookup? "error").isSome) := by
  have h1 : (r.to_json.lookup? "result").isSome = r.result.isSome
      ∧ (r.to_json.lookup? "error").isSome = r.error.isSome := by
    rcases r with ⟨id, res, err⟩
    cases res <;> cases err <;>
      simp [JsonRpcResponse.to_json, Json.lookup?, optField, List.lookup]
  refine ⟨h1, ?_⟩
  cases j with
  | null => simp [Codec.parse] at hp
  | bool b => simp [Codec.parse] at hp
  | num n => simp [Codec.parse] at hp
  | str s => simp [Codec.parse] at hp
  | arr es => simp [Codec.parse] at hp
  | obj fs =>
    rcases hv : (Json.obj fs).lookup? "jsonrpc" with _ | verj
    · simp [Codec.parse, Codec.parse_object, hv] at hp
    · rcases verj with _ | vb | vn | vs | ve | vo
      · simp [Codec.parse, Codec.parse_object, Json.getString, bind, Except.bind, hv] at hp
      · simp [Codec.parse, Codec.parse_object, Json.getString, bind, Except.bind, hv] at hp
      · simp [Codec.parse, Codec.parse_object, Json.getString, bind, Except.bind, hv] at hp
      · by_cases hvs : vs = "2.0"
        · subst hvs
          rcases hmv : (Json.obj fs).lookup? "method" with _ | mv
          · rcases hid : (Json.obj fs).lookup? "id" with _ | idv
            · simp [Codec.parse, Codec.parse_object, Json.getString, JSONRPC_VERSION,
                bind, Except.bind, hv, hmv, hid] at hp
            · rcases idv with _ | ib | ii | is | ie | io
              · simp [Codec.parse, Codec.parse_object, Json.getString, Json.isNull,
                  JSONRPC_VERSION, bind, Except.bind, hv, hmv, hid] at hp
              · simp [Codec.parse, Codec.parse_object, Json.getString, Json.isNull,
                  RequestId.from_json, JSONRPC_VERSION, bind, Except.bind, Except.map,
                  hv, hmv, hid] at hp
              · -- integer id: genuine response
                rcases her : (Json.obj fs).lookup? "error" with _ | ej
                · simp [Codec.parse, Codec.parse_object, Json.getString, Json.isNull,
                    RequestId.from_json, JSONRPC_VERSION, bind, Except.bind, Except.map,
                    hv, hmv, hid, her] at hp
                  simp [← hp, Json.lookup?, her]
                · rcases hfe : JsonRpcError.from_json ej with f | e
                  · simp [Codec.parse, Codec.parse_object, Json.getString, Json.isNull,
                      RequestId.from_json, JSONRPC_VERSION, bind, Except.bind, Except.map,
                      hv, hmv, hid, her, hfe] at hp
                  · simp [Codec.parse, Codec.parse_object, Json.getString, Json.isNull,
                      RequestId.from_json, JSONRPC_VERSION, bind, Except.bind, Except.map,
                      hv, hmv, hid, her, hfe] at hp
                    simp [← hp, Json.lookup?, her]
              · -- string id: genuine response
                rcases her : (Json.obj fs).lookup? "error" with _ | ej
                · simp [Codec.parse, Codec.parse_object, Json.getString, Json.isNull,
                    RequestId.from_json, JSONRPC_VERSION, bind, Except.bind, Except.map,
                    hv, hmv, hid, her] at hp
                  simp [← hp, Json.lookup?, her]
                · rcases hfe : JsonRpcError.from_json ej with f | e
                  · simp [Codec.parse, Codec.parse_object, Json.getString, Json.isNull,
                      RequestId.from_json, JSONRPC_VERSION, bind, Except.bind, Except.map,
                      hv, hmv, hid, her, hfe] at hp
                  · simp [Codec.parse, Codec.parse_object, Json.getString, Json.isNull,
                      RequestId.from_json, JSONRPC_VERSION, bind, Except.bind, Except.map,
                      hv, hmv, hid, her, hfe] at hp
                    simp [← hp, Json.lookup?, her]
              · simp [Codec.parse, Codec.parse_object, Json.getString, Json.isNull,
                  RequestId.from_json, JSONRPC_VERSION, bind, Except.bind, Except.map,
                  hv, hmv, hid] at hp
              · simp [Codec.parse, Codec.parse_object, Json.getString, Json.isNull,
                  RequestId.from_json, JSONRPC_VERSION, bind, Except.bind, Except.map,
                  hv, hmv, hid] at hp
          · rcases hid : (Json.obj fs).lookup? "id" with _ | idv
            · rcases mv with _ | mb | mn | ms | me | mo <;>
                simp [Codec.parse, Codec.parse_object, Json.getString, JSONRPC_VERSION,
                  bind, Except.bind, hv, hmv, hid] at hp
            · rcases idv with _ | ib | ii | is | ie | io <;>
                rcases mv with _ | mb | mn | ms | me | mo <;>
                simp [Codec.parse, Codec.parse_object, Json.getString, Json.isNull,
                  RequestId.from_json, JSONRPC_VERSION, bind, Except.bind, hv, hmv, hid] at hp
        · simp [Codec.parse, Codec.parse_object, Json.getString, JSONRPC_VERSION,
            bind, Except.bind, hv, hvs] at hp
      · simp [Codec.parse, Codec.parse_object, Json.getString, bind, Except.bind, hv] at hp
      · simp [Codec.parse, Codec.parse_object, Json.getString, bind, Except.bind, hv] at hp

/-- Witness for the amended C3 theorem at concrete frames: a response with
only `result` set, and the wire object `{"jsonrpc":"2.0","id":7,"result":null}`. -/
theorem response_result_error_mirroring_witness :
    (((JsonRpcResponse.to_json
        { id := .int 2, result := some (.num 3), error := none }).lookup? "result").isSome
        = (some (Json.num 3)).isSome
     ∧ ((JsonRpcResponse.to_json
        { id := .int 2, result := some (.num 3), error := none }).lookup? "error").isSome
        = (none : Option JsonRpcError).isSome)
    ∧ ((some Json.null).isSome
        = ((Json.obj [("jsonrpc", .str "2.0"), ("id", .num 7), ("result", .null)]).lookup?
            "result").isSome
       ∧ (none : Option JsonRpcError).isSome
        = ((Json.obj [("jsonrpc", .str "2.0"), ("id", .num 7), ("result", .null)]).lookup?
            "error").isSome) :=
  response_result_error_mirroring
    { id := .int 2, result := some (.num 3), error := none }
    (.obj [("jsonrpc", .str "2.0"), ("id", .num 7), ("result", .null)])
    { id := .int 7, result := some .null, error := none }
    rfl

-- The wire error-code constants of the `error` namespace (`error.hpp`).
namespace error

def ParseError : Int := -32700

def InvalidRequest : Int := -32600

def MethodNotFound : Int := -32601

def InvalidParams : Int := -32602

def InternalError : Int := -32603

def ResourceNotFound : Int := -32002

end error

/-- `struct ServerCapabilities` (`types.hpp`): presence of a field, not its
value, denotes support. -/
structure ServerCapabilities where
  tools : Option Json := none
  resources : Option Json := none
  prompts : Option Json := none
  logging : Option Json := none
  completions : Option Json := none
  experimental : Option Json := none

/-- `struct ClientCapabilities` (`types.hpp`). -/
structure ClientCapabilities where
  roots : Option Json := none
  sampling : Option Json := none
  elicitation : Option Json := none
  experimental : Option Json := none

/-- Outcome of invoking a C++ request handler
(`HandlerResult = std::variant<nlohmann::json, JsonRpcError>`, plus the two
exception routes the dispatcher catches). -/
inductive HandlerOutcome : Type where
  | ok (j : Json)
  | errVal (e : JsonRpcError)
  | throwProtocol (code : Int) (msg : String)
  | throwStd (msg : String)

/-- `RequestHandler` (`router.hpp`), with exceptions explicit. -/
def RequestHandler : Type := Json → HandlerOutcome

/-- Outcome of invoking a notification handler (may throw; returns nothing). -/
inductive NotifOutcome : Type where
  | ok
  | throwStd (msg : String)

/-- `NotificationHandler` (`router.hpp`). -/
def NotificationHandler : Type := Json → NotifOutcome

/-- The `Router`'s state (`router.hpp`): three maps keyed by method name plus
the negotiated capability pair.  The `std::map`s are modelled as association
lists with unique keys accessed by `List.lookup`. -/
structure Router where
  request_handlers : List (String × RequestHandler) := []
  notification_handlers : List (String × NotificationHandler) := []
  capability_requirements : List (String × String) := []
  server_caps : ServerCapabilities := {}
  client_caps : ClientCapabilities := {}

/-- The capability-name table inside `Router::check_capability`
(`router.cpp`, lines 42–52): the eight known requirement strings, each
checked for presence in the negotiated pair; anything else is not allowed. -/
def capabilityAllowed (sc : ServerCapabilities) (cc : ClientCapabilities)
    (cap : String) : Bool :=
  (cap == "tools" && sc.tools.isSome)
  || (cap == "resources" && sc.resources.isSome)
  || (cap == "prompts" && sc.prompts.isSome)
  || (cap == "logging" && sc.logging.isSome)
  || (cap == "completions" && sc.completions.isSome)
  || (cap == "sampling" && cc.sampling.isSome)
  || (cap == "roots" && cc.roots.isSome)
  || (cap == "elicitation" && cc.elicitation.isSome)

/-- `Router::check_capability` (`router.cpp`, lines 35–53): no registered
requirement means allowed. -/
def Router.check_capability (rt : Router) (method : String) : Bool :=
  match rt.capability_requirements.lookup method with
  | none => true
  | some cap => capabilityAllowed rt.server_caps rt.client_caps cap

/-- The error-reply construction pattern repeated in `Router::dispatch`:
a response with the request's id and an error of the given code/message. -/
def errorResponse (id : RequestId) (code : Int) (msg : String) : JsonRpcResponse :=
  { id := id, result := none,
    error := some { code := code, message := msg, data := none } }

/-- `Router::dispatch` (`router.cpp`, lines 55–139): capability gate, handler
lookup, invocation with `params` defaulted to an empty object, and the
exception-to-error mapping.  Notification handlers produce no reply and have
their exceptions swallowed; responses are never dispatched here. -/
def Router.dispatch (rt : Router) (msg : JsonRpcMessage) : Option JsonRpcMessage :=
  match msg with
  | .request req =>
    let params := req.params.getD (.obj [])
    if !rt.check_capability req.method then
      some (.response (errorResponse req.id error.InvalidRequest
        ("Capability not supported: " ++ req.method)))
    else
      match rt.request_handlers.lookup req.method with
      | none =>
        some (.response (errorResponse req.id error.MethodNotFound
          ("Method not found: " ++ req.method)))
      | some handler =>
        match handler params with
        | .ok v => some (.response { id := req.id, result := some v, error := none })
        | .errVal e => some (.response { id := req.id, result := none, error := some e })
        | .throwProtocol c m => some (.response (errorResponse req.id c m))
        | .throwStd m => some (.response (errorResponse req.id error.InternalError m))
  | .notification nt =>
    match rt.notification_handlers.lookup nt.method with
    | none => none
    | some _ => none
  | .response _ => none

/-- C4: For every request frame dispatched through `Router::dispatch`: a
registered capability requirement missing from the negotiated pair yields an
invalid-request (−32600) error response; with the gate passed, a missing
handler yields method-not-found (−32601); otherwise the handler's outcome is
mapped to a response — success JSON to `result`, an explicit error value to
`error`, a thrown `McpProtocolError` to an error with that code, and any
other exception to internal-error (−32603) with the exception message. -/
theorem router_dispatch_request_spec (rt : Router) (req : JsonRpcRequest) :
    (∀ cap, rt.capability_requirements.lookup req.method = some cap →
       capabilityAllowed rt.server_caps rt.client_caps cap = false →
       rt.dispatch (.request req) = some (.response (errorResponse req.id
         error.InvalidRequest ("Capability not supported: " ++ req.method))))
    ∧ (rt.check_capability req.method = true →
       rt.request_handlers.lookup req.method = none →
       rt.dispatch (.request req) = some (.response (errorResponse req.id
         error.MethodNotFound ("Method not found: " ++ req.method))))
    ∧ (∀ h, rt.check_capability req.method = true →
       rt.request_handlers.lookup req.method = some h →
       ((∀ v, h (req.params.getD (.obj [])) = .ok v →
           rt.dispatch (.request req)
             = some (.response { id := req.id, result := some v, error := none }))
        ∧ (∀ e, h (req.params.getD (.obj [])) = .errVal e →
           rt.dispatch (.request req)
             = some (.response { id := req.id, result := none, error := some e }))
        ∧ (∀ c m, h (req.params.getD (.obj [])) = .throwProtocol c m →
           rt.dispatch (.request req)
             = some (.response (errorResponse req.id c m)))
        ∧ (∀ m, h (req.params.getD (.obj [])) = .throwStd m →
           rt.dispatch (.request req)
             = some (.response (errorResponse req.id error.InternalError m))))) := by
  refine ⟨?_, ?_, ?_⟩
  · intro cap hreq hcap
    simp [Router.dispatch, Router.check_capability, hreq, hcap]
  · intro hchk hlk
    simp [Router.dispatch, hchk, hlk]
  · intro h hchk hlk
    refine ⟨?_, ?_, ?_, ?_⟩
    · intro v hout
      simp [Router.dispatch, hchk, hlk, hout]
    · intro e hout
      simp [Router.dispatch, hchk, hlk, hout]
    · intro c m hout
      simp [Router.dispatch, hchk, hlk, hout]
    · intro m hout
      simp [Router.dispatch, hchk, hlk, hout]

/-- Witness for C4 at concrete routers: a capability-gated method with the
capability absent from the negotiated pair, and a registered handler that
throws a non-protocol exception. -/
theorem router_dispatch_request_spec_witness :
    Router.dispatch { capability_requirements := [("tools/call", "tools")] }
        (.request { id := .int 1, method := "tools/call", params := none, meta := none })
      = some (.response (errorResponse (.int 1) error.InvalidRequest
          ("Capability not supported: " ++ "tools/call")))
    ∧ Router.dispatch { request_handlers := [("boom", fun _ => .throwStd "kaboom")] }
        (.request { id := .int 2, method := "boom", params := none, meta := none })
      = some (.response (errorResponse (.int 2) error.InternalError "kaboom")) :=
  ⟨(router_dispatch_request_spec _ _).1 "tools" rfl rfl,
   ((router_dispatch_request_spec
        { request_handlers := [("boom", fun _ => .throwStd "kaboom")] }
        { id := .int 2, method := "boom", params := none, meta := none }).2.2
      (fun _ => .throwStd "kaboom") rfl rfl).2.2.2 "kaboom" rfl⟩

/-- The characters `std::isspace` skips in the default locale, as consumed by
`std::stoull` before the number. -/
def isSpaceChar (ch : Char) : Bool :=
  ch == ' ' || ch == '\t' || ch == '\n' || ch == '\x0b' || ch == '\x0c' || ch == '\r'

/-- Value of a run of decimal digits. -/
def digitsToNat (ds : List Char) : Nat :=
  ds.foldl (fun a ch => a * 10 + (ch.toNat - 48)) 0

/-- `std::stoull` at base 10: skip leading whitespace, accept one optional
sign, consume the longest run of decimal digits.  `none` models a throw —
`std::invalid_argument` when no digit was consumed, `std::out_of_range` when
the digit run exceeds `ULLONG_MAX`.  A consumed `-` negates modulo `2^64`
(the `strtoull` wrap). -/
def stoull (s : String) : Option Nat :=
  let cs := s.data.dropWhile isSpaceChar
  let signAndRest : Bool × List Char :=
    match cs with
    | '-' :: r => (true, r)
    | '+' :: r => (false, r)
    | _ => (false, cs)
  let ds := signAndRest.2.takeWhile Char.isDigit
  if ds.isEmpty then none
  else
    let v := digitsToNat ds
    if 2 ^ 64 - 1 < v then none
    else some (if signAndRest.1 then (2 ^ 64 - v) % 2 ^ 64 else v)

/-- `PagedStore` (`server.cpp`, lines 28–49): items in insertion order and a
per-store page size (default 50). -/
structure PagedStore (T : Type) where
  items : List T := []
  page_size : Nat := 50

/-- `PagedStore::page` (`server.cpp`, lines 34–48): parse the cursor with
`std::stoull`, any exception caught and replaced by offset 0; an offset past
the end yields an empty page with no next cursor; otherwise the slice
`[start, min(start+page_size, len))` and, when the slice stops short of the
end, the string form of the end offset as the next cursor. -/
def PagedStore.page {T : Type} (st : PagedStore T) (cursor : Option String) :
    List T × Option String :=
  let start : Nat :=
    match cursor with
    | some c => (stoull c).getD 0
    | none => 0
  if st.items.length ≤ start then ([], none)
  else
    let e := min (start + st.page_size) st.items.length
    ((st.items.drop start).take (e - start),
     if e < st.items.length then some (toString e) else none)

/-- C6: For a paged store with page size N and a cursor of numeric value c
(absent meaning 0), `page` returns the slice `[c, min(c+N, len))` together
with `nextCursor = to_string(c+N)` exactly when `c+N < len`; in particular a
cursor at or past the end returns an empty page with no nextCursor, and a
page ending exactly at the end has no nextCursor. -/
theorem paged_store_page_spec {T : Type} (st : PagedStore T) (copt : Option String)
    (c : Nat)
    (hc : match copt with
          | none => c = 0
          | some s => stoull s = some c) :
    st.page copt
      = ((st.items.drop c).take (min (c + st.page_size) st.items.length - c),
         if c + st.page_size < st.items.length
           then some (toString (c + st.page_size)) else none)
    ∧ (st.items.length ≤ c → st.page copt = ([], none))
    ∧ (c + st.page_size = st.items.length → (st.page copt).2 = none) := by
  have hpage : st.page copt
      = if st.items.length ≤ c then ([], none)
        else ((st.items.drop c).take (min (c + st.page_size) st.items.length - c),
              if min (c + st.page_size) st.items.length < st.items.length
                then some (toString (min (c + st.page_size) st.items.length))
                else none) := by
    cases copt with
    | none =>
      have hc0 : c = 0 := hc
      subst hc0
      rfl
    | some s =>
      have hs : stoull s = some c := hc
      simp only [PagedStore.page, hs, Option.getD_some]
  rw [hpage]
  refine ⟨?_, ?_, ?_⟩
  · by_cases hlen : st.items.length ≤ c
    · rw [if_pos hlen, List.drop_eq_nil_of_le hlen]
      rw [if_neg (by omega : ¬ c + st.page_size < st.items.length)]
      simp
    · rw [if_neg hlen]
      by_cases h2 : c + st.page_size < st.items.length
      · rw [if_pos (by omega : min (c + st.page_size) st.items.length < st.items.length),
          if_pos h2]
        rw [(by omega : min (c + st.page_size) st.items.length = c + st.page_size)]
      · rw [if_neg (by omega : ¬ min (c + st.page_size) st.items.length < st.items.length),
          if_neg h2]
  · intro hlen
    rw [if_pos hlen]
  · intro hend
    by_cases hlen : st.items.length ≤ c
    · rw [if_pos hlen]
    · rw [if_neg hlen]
      rw [if_neg (by omega : ¬ min (c + st.page_size) st.items.length < st.items.length)]

/-- Witness for C6 at a concrete store: four items, page size 2, cursor "2"
— the final page, exactly covering the items, with no nextCursor. -/
theorem paged_store_page_spec_witness :
    stoull "2" = some 2
    ∧ PagedStore.page { items := [10, 20, 30, 40], page_size := 2 } (some "2")
        = (([30, 40] : List Nat), none) :=
  ⟨rfl,
   (paged_store_page_spec { items := [10, 20, 30, 40], page_size := 2 } (some "2") 2 rfl).1⟩

/-- C10 counterexample: `std::stoull` parses the numeric prefix of a cursor,
so `"1x"` — a string that does not parse as a decimal unsigned integer — is
treated as offset 1, not 0: with items `[10, 20]` and page size 1 the claim
demands the first page `([10], nextCursor "1")`, but the code returns the
second page `([20], no nextCursor)`. -/
theorem paged_store_cursor_prefix_counterexample :
    PagedStore.page { items := [10, 20], page_size := 1 } (some "1x")
      = (([20] : List Nat), none)
    ∧ PagedStore.page { items := [10, 20], page_size := 1 } (some "1x")
      ≠ PagedStore.page { items := ([10, 20] : List Nat), page_size := 1 } none
    ∧ PagedStore.page { items := [10, 20], page_size := 1 } none
      = (([10] : List Nat), some "1") := by
  refine ⟨rfl, ?_, rfl⟩
  decide

/-- C10 (amended): a cursor string on which `std::stoull` throws — no decimal
digit after optional whitespace and an optional sign (e.g. "abc"), or a digit
run past `ULLONG_MAX` — is treated as offset 0, so `page` behaves exactly as
with an absent cursor: the first page, with a nextCursor when more items
remain.  A cursor with a parsable numeric prefix (e.g. "1x") instead uses
that prefix as the offset. -/
theorem paged_store_unparsable_cursor_first_page {T : Type} (st : PagedStore T)
    (s : String) (hs : stoull s = none) :
    st.page (some s) = st.page none := by
  have h0 : (stoull s).getD 0 = 0 := by rw [hs]; rfl
  simp only [PagedStore.page, h0]

/-- Witness for the amended C10 theorem: the cursor "abc". -/
theorem paged_store_unparsable_cursor_first_page_witness :
    stoull "abc" = none
    ∧ PagedStore.page { items := [10, 20], page_size := 1 } (some "abc")
        = PagedStore.page { items := ([10, 20] : List Nat), page_size := 1 } none :=
  ⟨rfl, paged_store_unparsable_cursor_first_page _ "abc" rfl⟩

/-- `struct TextContent` (`types.hpp`).  `Annotations` is an opaque
JSON-serializable record here; no claim inspects it. -/
structure TextContent where
  text : String
  annotations : Option Json := none

/-- `Content` (`types.hpp`): five wire-tagged alternatives.  Only the text
alternative is constructed by the code paths under claim; the other four are
carried as their serialized JSON (their `to_json` overloads are plain field
maps not exercised by any claim). -/
inductive Content : Type where
  | text (t : TextContent)
  | image (j : Json)
  | audio (j : Json)
  | resourceLink (j : Json)
  | embeddedResource (j : Json)

/-- `to_json` for `Content` (`types.cpp`): the text case emits
`{type:"text", text, annotations?}`. -/
def Content.to_json : Content → Json
  | .text t => .obj ([("type", .str "text"), ("text", .str t.text)]
      ++ optField "annotations" t.annotations)
  | .image j => j
  | .audio j => j
  | .resourceLink j => j
  | .embeddedResource j => j

/-- `struct CallToolResult` (`types.hpp`). -/
structure CallToolResult where
  content : List Content := []
  structured_content : Option Json := none
  is_error : Bool := false

/-- `to_json` for `CallToolResult` (`types.cpp`, lines 141–151): `content`
always; `structuredContent` when set; `isError` only when true. -/
def CallToolResult.to_json (t : CallToolResult) : Json :=
  .obj ([("content", .arr (t.content.map Content.to_json))]
        ++ optField "structuredContent" t.structured_content
        ++ (if t.is_error then [("isError", .bool t.is_error)] else []))

/-- Outcome of a tool handler invocation (`ToolHandler` in `server.hpp`);
`throwStd` is a thrown `std::exception` with its `what()` text. -/
inductive ToolOutcome : Type where
  | ok (r : CallToolResult)
  | throwStd (msg : String)

/-- `ToolHandler` (`server.hpp`). -/
def ToolHandler : Type := Json → ToolOutcome

/-- `AsyncToolHandler` (`server.hpp`): returns a future; `fut.get()`
rethrows any stored exception, so the observable outcome is the same. -/
def AsyncToolHandler : Type := Json → ToolOutcome

/-- Outcome of a resource-read handler: a list of serialized
`ResourceContent` objects, or a thrown exception. -/
inductive ResourceReadOutcome : Type where
  | ok (contents : List Json)
  | throwStd (msg : String)

/-- `ResourceReadHandler` (`server.hpp`). -/
def ResourceReadHandler : Type := String → ResourceReadOutcome

/-- Outcome of a prompt handler (registered but not invoked by any claim). -/
inductive PromptGetOutcome : Type where
  | ok (j : Json)
  | throwStd (msg : String)

/-- `PromptGetHandler` (`server.hpp`). -/
def PromptGetHandler : Type := String → Json → PromptGetOutcome

/-- `struct ToolDefinition` (`types.hpp`). -/
structure ToolDefinition where
  name : String
  title : Option String := none
  description : Option String := none
  input_schema : Json := .obj []
  output_schema : Option Json := none
  annotations : Option Json := none

/-- `struct ResourceDefinition` (`types.hpp`). -/
structure ResourceDefinition where
  uri : String
  name : String := ""
  title : Option String := none
  description : Option String := none
  mime_type : Option String := none
  size : Option Nat := none
  annotations : Option Json := none

/-- `struct ResourceTemplate` (`types.hpp`). -/
structure ResourceTemplate where
  uri_template : String
  name : String := ""
  title : Option String := none
  description : Option String := none
  mime_type : Option String := none
  annotations : Option Json := none

/-- `struct PromptArgument` (`types.hpp`). -/
structure PromptArgument where
  name : String
  description : Option String := none
  required : Bool := false

/-- `struct PromptDefinition` (`types.hpp`). -/
structure PromptDefinition where
  name : String
  title : Option String := none
  description : Option String := none
  arguments : List PromptArgument := []

/-- `std::unordered_map` assignment `m[k] = v`: replace or insert under the
key (association-list model; lookup finds the head first). -/
def mapInsert {V : Type} (k : String) (v : V) (m : List (String × V)) :
    List (String × V) :=
  (k, v) :: m.filter (fun p => p.1 != k)

/-- `std::unordered_map::erase(k)`. -/
def mapErase {V : Type} (k : String) (m : List (String × V)) :
    List (String × V) :=
  m.filter (fun p => p.1 != k)

/-- The storage slice of `McpServer::Impl` (`server.cpp`, lines 58–95) that
the claims exercise, plus the `running` flag.  The mutexes serialize access
and are not modelled; `unordered_map`s are association lists whose iteration
order is the list order. -/
structure McpServer where
  tools : PagedStore ToolDefinition := {}
  tool_handlers : List (String × ToolHandler) := []
  async_tool_handlers : List (String × AsyncToolHandler) := []
  resources : PagedStore ResourceDefinition := {}
  resource_handlers : List (String × ResourceReadHandler) := []
  resource_templates : PagedStore ResourceTemplate := {}
  resource_template_handlers : List (String × ResourceReadHandler) := []
  prompts : PagedStore PromptDefinition := {}
  prompt_handlers : List (String × PromptGetHandler) := []
  subscribed_uris : List String := []
  running : Bool := false

/-- A `*/list_changed` notification as sent by `Impl::send_notification`
(no params). -/
def listChangedNotif (method : String) : JsonRpcNotification :=
  { method := method, params := none }

/-- `McpServer::add_tool` (`server.cpp`, lines 516–529): erase any tool of
the same name from the store, set the sync handler, append the definition,
and emit one `notifications/tools/list_changed` when running.  Returns the
new state and the emitted notifications. -/
def McpServer.add_tool (sv : McpServer) (d : ToolDefinition) (h : ToolHandler) :
    McpServer × List JsonRpcNotification :=
  ({ sv with
      tools := { sv.tools with
                 items := (sv.tools.items.filter (fun t => t.name != d.name)) ++ [d] },
      tool_handlers := mapInsert d.name h sv.tool_handlers },
   if sv.running then [listChangedNotif "notifications/tools/list_changed"] else [])

/-- `McpServer::add_tool_async` (`server.cpp`, lines 531–542). -/
def McpServer.add_tool_async (sv : McpServer) (d : ToolDefinition)
    (h : AsyncToolHandler) : McpServer × List JsonRpcNotification :=
  ({ sv with
      tools := { sv.tools with
                 items := (sv.tools.items.filter (fun t => t.name != d.name)) ++ [d] },
      async_tool_handlers := mapInsert d.name h sv.async_tool_handlers },
   if sv.running then [listChangedNotif "notifications/tools/list_changed"] else [])

/-- `McpServer::remove_tool` (`server.cpp`, lines 544–555). -/
def McpServer.remove_tool (sv : McpServer) (name : String) :
    McpServer × List JsonRpcNotification :=
  ({ sv with
      tools := { sv.tools with
                 items := sv.tools.items.filter (fun t => t.name != name) },
      tool_handlers := mapErase name sv.tool_handlers,
      async_tool_handlers := mapErase name sv.async_tool_handlers },
   if sv.running then [listChangedNotif "notifications/tools/list_changed"] else [])

/-- `McpServer::add_resource` (`server.cpp`, lines 557–568). -/
def McpServer.add_resource (sv : McpServer) (d : ResourceDefinition)
    (h : ResourceReadHandler) : McpServer × List JsonRpcNotification :=
  ({ sv with
      resources := { sv.resources with
                     items := (sv.resources.items.filter (fun r => r.uri != d.uri)) ++ [d] },
      resource_handlers := mapInsert d.uri h sv.resource_handlers },
   if sv.running then [listChangedNotif "notifications/resources/list_changed"] else [])

/-- `McpServer::remove_resource` (`server.cpp`, lines 591–601). -/
def McpServer.remove_resource (sv : McpServer) (uri : String) :
    McpServer × List JsonRpcNotification :=
  ({ sv with
      resources := { sv.resources with
                     items := sv.resources.items.filter (fun r => r.uri != uri) },
      resource_handlers := mapErase uri sv.resource_handlers },
   if sv.running then [listChangedNotif "notifications/resources/list_changed"] else [])

/-- `McpServer::add_resource_template` (`server.cpp`, lines 570–577): erase
any template with the same pattern, set the handler, append — and, unlike
every other mutator in this file, send no notification at all. -/
def McpServer.add_resource_template (sv : McpServer) (tmpl : ResourceTemplate)
    (h : ResourceReadHandler) : McpServer × List JsonRpcNotification :=
  ({ sv with
      resource_templates :=
        { sv.resource_templates with
          items := (sv.resource_templates.items.filter
                     (fun t => t.uri_template != tmpl.uri_template)) ++ [tmpl] },
      resource_template_handlers :=
        mapInsert tmpl.uri_template h sv.resource_template_handlers },
   [])

/-- `McpServer::add_prompt` (`server.cpp`, lines 603–614). -/
def McpServer.add_prompt (sv : McpServer) (d : PromptDefinition)
    (h : PromptGetHandler) : McpServer × List JsonRpcNotification :=
  ({ sv with
      prompts := { sv.prompts with
                   items := (sv.prompts.items.filter (fun p => p.name != d.name)) ++ [d] },
      prompt_handlers := mapInsert d.name h sv.prompt_handlers },
   if sv.running then [listChangedNotif "notifications/prompts/list_changed"] else [])

/-- `McpServer::remove_prompt` (`server.cpp`, lines 616–626). -/
def McpServer.remove_prompt (sv : McpServer) (name : String) :
    McpServer × List JsonRpcNotification :=
  ({ sv with
      prompts := { sv.prompts with
                   items := sv.prompts.items.filter (fun p => p.name != name) },
      prompt_handlers := mapErase name sv.prompt_handlers },
   if sv.running then [listChangedNotif "notifications/prompts/list_changed"] else [])

/-- `McpServer::notify_resource_updated` (`server.cpp`, lines 579–589): read
the subscription flag, then send `notifications/resources/updated` with
`{uri}` only when the uri was subscribed and the peer is running. -/
def McpServer.notify_resource_updated (sv : McpServer) (uri : String) :
    List JsonRpcNotification :=
  let subscribed := sv.subscribed_uris.contains uri
  if subscribed && sv.running then
    [{ method := "notifications/resources/updated",
       params := some (.obj [("uri", .str uri)]) }]
  else []

/-- The `catch` block of the `tools/call` handler (`server.cpp`, lines
272–279): wrap the exception text as a single TextContent inside a
CallToolResult with `isError=true`. -/
def toolErrorResult (msg : String) : CallToolResult :=
  { content := [.text { text := msg, annotations := none }],
    structured_content := none, is_error := true }

/-- The `try` block of the `tools/call` handler: serialize a successful
CallToolResult, or convert a thrown exception into the `isError` result —
still returned as handler success (`server.cpp`, lines 261–279). -/
def runToolHandler (h : ToolHandler) (arguments : Json) : HandlerOutcome :=
  match h arguments with
  | .ok r => .ok r.to_json
  | .throwStd m => .ok (toolErrorResult m).to_json

/-- The `tools/call` request handler (`server.cpp`, lines 238–280): look up
the sync handler, then the async one; an unknown tool is an invalid-params
error value (a wire error); invocation goes through the catch-all above.  A
missing or non-string `name` makes `params.at` / `get<std::string>` throw,
which escapes to the router. -/
def toolsCallHandler (sv : McpServer) (params : Json) : HandlerOutcome :=
  match params.lookup? "name" with
  | some (.str name) =>
    let arguments := (params.lookup? "arguments").getD (.obj [])
    match sv.tool_handlers.lookup name, sv.async_tool_handlers.lookup name with
    | some h, _ => runToolHandler h arguments
    | none, some h => runToolHandler h arguments
    | none, none =>
      .errVal { code := error.InvalidParams,
                message := "Unknown tool: " ++ name, data := none }
  | _ => .throwStd "tools/call: missing or non-string name"

/-- C5: For every `tools/call` request with a string tool name: when neither
a sync nor an async handler is registered, the reply is an invalid-params
(−32602) error value — a wire error; when the selected handler throws, the
reply is a *successful* result whose CallToolResult has `isError=true` and a
single TextContent carrying the exception message — never a JSON-RPC error
response. -/
theorem tools_call_handler_spec (sv : McpServer) (params : Json) (name : String)
    (hname : params.lookup? "name" = some (.str name)) :
    (sv.tool_handlers.lookup name = none →
     sv.async_tool_handlers.lookup name = none →
     toolsCallHandler sv params
       = .errVal { code := error.InvalidParams,
                   message := "Unknown tool: " ++ name, data := none })
    ∧ (∀ h m, sv.tool_handlers.lookup name = some h →
       h ((params.lookup? "arguments").getD (.obj [])) = .throwStd m →
       toolsCallHandler sv params = .ok ((toolErrorResult m).to_json))
    ∧ (∀ h m, sv.tool_handlers.lookup name = none →
       sv.async_tool_handlers.lookup name = some h →
       h ((params.lookup? "arguments").getD (.obj [])) = .throwStd m →
       toolsCallHandler sv params = .ok ((toolErrorResult m).to_json))
    ∧ (∀ m, (toolErrorResult m).to_json
       = .obj [("content", .arr [.obj [("type", .str "text"), ("text", .str m)]]),
               ("isError", .bool true)]) := by
  refine ⟨?_, ?_, ?_, ?_⟩
  · intro hs ha
    simp [toolsCallHandler, hname, hs, ha]
  · intro h m hs hout
    simp [toolsCallHandler, runToolHandler, hname, hs, hout]
  · intro h m hs ha hout
    simp [toolsCallHandler, runToolHandler, hname, hs, ha, hout]
  · intro m
    rfl

/-- Witness for C5: a server with one throwing sync tool, called once for an
unknown tool and once for the throwing tool. -/
theorem tools_call_handler_spec_witness :
    toolsCallHandler { tool_handlers := [("echo", fun _ => .throwStd "bad input")] }
        (.obj [("name", .str "nosuch")])
      = .errVal { code := error.InvalidParams,
                  message := "Unknown tool: " ++ "nosuch", data := none }
    ∧ toolsCallHandler { tool_handlers := [("echo", fun _ => .throwStd "bad input")] }
        (.obj [("name", .str "echo")])
      = .ok ((toolErrorResult "bad input").to_json) :=
  ⟨(tools_call_handler_spec { tool_handlers := [("echo", fun _ => .throwStd "bad input")] }
      (.obj [("name", .str "nosuch")]) "nosuch" rfl).1 rfl rfl,
   ((tools_call_handler_spec { tool_handlers := [("echo", fun _ => .throwStd "bad input")] }
      (.obj [("name", .str "echo")]) "echo" rfl).2.1
     (fun _ => .throwStd "bad input") "bad input" rfl rfl)⟩

/-- The template key's literal stem: the key up to the first placeholder
brace (`tmpl_key.substr(0, tmpl_key.find(...))`, the whole key when there is
none). -/
def templateStem (tmpl : String) : String :=
  String.mk (tmpl.data.takeWhile (fun ch => ch != '\x7b'))

/-- The `try` block of the `resources/read` handler (`server.cpp`, lines
321–327): serialize the contents list, or map a thrown exception to
internal-error. -/
def runResourceHandler (h : ResourceReadHandler) (uri : String) : HandlerOutcome :=
  match h uri with
  | .ok contents => .ok (.obj [("contents", .arr contents)])
  | .throwStd m => .errVal { code := error.InternalError, message := m, data := none }

/-- The `resources/read` request handler (`server.cpp`, lines 296–328):
exact-URI handler first; otherwise the first template handler whose stem is
a prefix of the uri (`uri.find(stem) == 0`, a character-list prefix test
here); no match is a
resource-not-found (−32002) error value.  The `unordered_map` iteration
order is modelled as list order. -/
def resourcesReadHandler (sv : McpServer) (params : Json) : HandlerOutcome :=
  match params.lookup? "uri" with
  | some (.str uri) =>
    match sv.resource_handlers.lookup uri with
    | some h => runResourceHandler h uri
    | none =>
      match sv.resource_template_handlers.find?
          (fun p => (templateStem p.1).data.isPrefixOf uri.data) with
      | some p => runResourceHandler p.2 uri
      | none =>
        .errVal { code := error.ResourceNotFound,
                  message := "Resource not found: " ++ uri, data := none }
  | _ => .throwStd "resources/read: missing or non-string uri"

/-- C7: For every `resources/read` request with a string uri: a registered
exact-URI handler is invoked; otherwise a template handler whose stem (the
template up to the first placeholder brace) is a prefix of the uri is
invoked; with neither, the reply is a resource-not-found (−32002) error. -/
theorem resources_read_handler_spec (sv : McpServer) (params : Json) (uri : String)
    (huri : params.lookup? "uri" = some (.str uri)) :
    (∀ h, sv.resource_handlers.lookup uri = some h →
       resourcesReadHandler sv params = runResourceHandler h uri)
    ∧ (∀ k h, sv.resource_handlers.lookup uri = none →
       sv.resource_template_handlers.find?
           (fun p => (templateStem p.1).data.isPrefixOf uri.data) = some (k, h) →
       resourcesReadHandler sv params = runResourceHandler h uri
         ∧ (templateStem k).data.isPrefixOf uri.data = true)
    ∧ (sv.resource_handlers.lookup uri = none →
       sv.resource_template_handlers.find?
           (fun p => (templateStem p.1).data.isPrefixOf uri.data) = none →
       resourcesReadHandler sv params
         = .errVal { code := error.ResourceNotFound,
                     message := "Resource not found: " ++ uri, data := none }) := by
  refine ⟨?_, ?_, ?_⟩
  · intro h hex
    simp [resourcesReadHandler, huri, hex]
  · intro k h hex hft
    constructor
    · simp [resourcesReadHandler, huri, hex, hft]
    · have := List.find?_some hft
      simpa using this
  · intro hex hft
    simp [resourcesReadHandler, huri, hex, hft]

/-- Witness for C7: one template `file:///logs/{name}` and a uri below it;
then a uri nothing matches. -/
theorem resources_read_handler_spec_witness :
    resourcesReadHandler
        { resource_template_handlers :=
            [("file:///logs/\x7bname\x7d", fun _ => .ok [])] }
        (.obj [("uri", .str "file:///logs/today")])
      = runResourceHandler (fun _ => .ok []) "file:///logs/today"
    ∧ resourcesReadHandler ({} : McpServer) (.obj [("uri", .str "file:///nope")])
      = .errVal { code := error.ResourceNotFound,
                  message := "Resource not found: " ++ "file:///nope", data := none } :=
  ⟨((resources_read_handler_spec
      { resource_template_handlers := [("file:///logs/\x7bname\x7d", fun _ => .ok [])] }
      (.obj [("uri", .str "file:///logs/today")]) "file:///logs/today" rfl).2.1
     "file:///logs/\x7bname\x7d" (fun _ => .ok []) rfl rfl).1,
   (resources_read_handler_spec ({} : McpServer)
      (.obj [("uri", .str "file:///nope")]) "file:///nope" rfl).2.2 rfl rfl⟩

/-- C8 counterexample: with `"file:///a"` subscribed but the peer not
running, `notify_resource_updated` emits nothing even though the uri is in
the subscription set at the time of the call — so membership in the
subscription set alone is not equivalent to emission. -/
theorem notify_resource_updated_counterexample :
    McpServer.notify_resource_updated { subscribed_uris := ["file:///a"] } "file:///a" = []
    ∧ List.contains ["file:///a"] "file:///a" = true :=
  ⟨rfl, rfl⟩

/-- C8 (amended): `notify_resource_updated(u)` emits a notification iff u is
in the subscription set at the time of the call *and the peer is running*;
whatever it emits is exactly one `notifications/resources/updated` carrying
`{uri: u}`. -/
theorem notify_resource_updated_spec (sv : McpServer) (uri : String) :
    (sv.notify_resource_updated uri ≠ []
      ↔ (sv.subscribed_uris.contains uri = true ∧ sv.running = true))
    ∧ (∀ n, n ∈ sv.notify_resource_updated uri →
        n = { method := "notifications/resources/updated",
              params := some (.obj [("uri", .str uri)]) })
    ∧ (sv.notify_resource_updated uri).length ≤ 1 := by
  unfold McpServer.notify_resource_updated
  by_cases h1 : sv.subscribed_uris.contains uri <;> by_cases h2 : sv.running <;>
    simp [h1, h2] <;> split <;> simp

/-- Witness for the amended C8 theorem: a running peer with `"file:///a"`
subscribed does emit. -/
theorem notify_resource_updated_spec_witness :
    McpServer.notify_resource_updated
        { subscribed_uris := ["file:///a"], running := true } "file:///a" ≠ [] :=
  (notify_resource_updated_spec
    { subscribed_uris := ["file:///a"], running := true } "file:///a").1.mpr ⟨rfl, rfl⟩

/-- C9: the code slip behind the claim — `add_resource_template` updates the
template store but, unlike every sibling mutator, emits no
`notifications/resources/list_changed`, not even while running; for
contrast, `add_tool` on a running peer emits exactly the one
`notifications/tools/list_changed` the claim demands. -/
theorem add_resource_template_emits_no_notification :
    (∀ (sv : McpServer) (tmpl : ResourceTemplate) (h : ResourceReadHandler),
       (sv.add_resource_template tmpl h).2 = [])
    ∧ (McpServer.add_tool { running := true } { name := "t" } (fun _ => .ok {})).2
      = [listChangedNotif "notifications/tools/list_changed"] :=
  ⟨fun _ _ _ => rfl, rfl⟩
